import Mathlib

/-!
Verification development for the smart-helpbox repository
(src/app/main.py and src/app/services.py).

The pipeline under study answers natural-language navigation queries:
it retrieves candidate routes from a vector index, prompts a generation
backend, parses the backend text into a suggestion response, and resolves
extracted parameters (names/emails) into identifiers via the lookup
functions of services.py.

Modelling conventions used throughout this file:
* Python strings are modelled as `List Char`; string literals are
  injected via `String.data` (Lean `String` primitives do not reduce
  well inside the kernel, and the Python operations the code uses are
  re-implemented character-by-character below).
* Python `int` is modelled as `Int`; file bytes as `List Nat` (each
  byte < 256).
* Fallible Python code (statements that can raise) is modelled with
  `Except (List Char) _`; the carried message stands for the
  exception / HTTP 500 detail text, whose exact wording is abstracted.
* Calls to external processes (the Gemini HTTP backend, the FAISS
  store, the embedding model) are modelled as explicit parameters of
  the functions that invoke them.
-/

set_option maxRecDepth 20000

/-! ## Python string primitives used by the source -/

/-- Character-level model of Python `str.lower()` (the data handled by the
program is ASCII, on which `Char.toLower` agrees with Python). -/
def pyLower (s : List Char) : List Char := s.map Char.toLower

/-- Model of the Python substring test `needle in hay` for strings. -/
def pyContains : List Char → List Char → Bool
  | hay, needle =>
    if needle.isPrefixOf hay then true
    else
      match hay with
      | [] => false
      | _ :: t => pyContains t needle

/-- Whitespace characters removed by Python `str.strip()`. -/
def isPySpace (c : Char) : Bool :=
  c = ' ' || c = '\t' || c = '\n' || c = '\r' || c = '\x0b' || c = '\x0c'

/-- Model of Python `str.strip()`: remove whitespace from both ends. -/
def pyStrip (s : List Char) : List Char :=
  ((s.dropWhile isPySpace).reverse.dropWhile isPySpace).reverse

/-- Model of Python `str.replace(pat, rep)` (all non-overlapping
occurrences, left to right). The fuel argument is the length of the
subject string; every step consumes at least one character, so the fuel
never runs out when the pattern is non-empty, which is the only way the
program calls it (the pattern is always the literal `:id`). -/
def pyReplaceAux (pat rep : List Char) : Nat → List Char → List Char
  | 0, s => s
  | fuel + 1, s =>
    match s with
    | [] => []
    | c :: rest =>
      if pat ≠ [] ∧ pat.isPrefixOf (c :: rest) then
        rep ++ pyReplaceAux pat rep fuel ((c :: rest).drop pat.length)
      else
        c :: pyReplaceAux pat rep fuel rest

/-- Model of Python `str.replace` as used by the program. -/
def pyReplace (s pat rep : List Char) : List Char :=
  pyReplaceAux pat rep s.length s

/-- Decimal digits of a natural number, most significant first. The fuel
argument only needs to exceed the number of digits; every recursive step
divides the argument by ten. -/
def natToCharsAux : Nat → Nat → List Char
  | 0, _ => []
  | fuel + 1, n =>
    if n < 10 then [Char.ofNat (48 + n)]
    else natToCharsAux fuel (n / 10) ++ [Char.ofNat (48 + n % 10)]

/-- Decimal digits of a natural number, most significant first. -/
def natToChars (n : Nat) : List Char := natToCharsAux (n + 1) n

/-- Model of Python `str(i)` for an `int` value. -/
def intToChars (i : Int) : List Char :=
  if i < 0 then '-' :: natToChars i.natAbs else natToChars i.natAbs

/-! ## services.py: the identifier lookup service

Faithful embedding of src/app/services.py. Python dictionaries preserve
insertion order, so each table is modelled as an association list in
source order; the `for ... in dict.values()` loops become list scans. -/

structure OrgRec where
  id : Int
  name : List Char
deriving DecidableEq

structure PersonRec where
  id : Int
  name : List Char
  email : List Char
deriving DecidableEq

/-- Dummy data for organizations (src/app/services.py, `ORGANIZATIONS`). -/
def ORGANIZATIONS : List (List Char × OrgRec) :=
  [ ("rf-test".data, ⟨1, "RF-Test Organization".data⟩),
    ("acme-corp".data, ⟨2, "ACME Corporation".data⟩),
    ("tech-solutions".data, ⟨3, "Tech Solutions Ltd".data⟩) ]

/-- Dummy data for advisers (src/app/services.py, `ADVISERS`). -/
def ADVISERS : List (List Char × PersonRec) :=
  [ ("john.doe@example.com".data,
      ⟨101, "John Doe".data, "john.doe@example.com".data⟩),
    ("jane.smith@example.com".data,
      ⟨102, "Jane Smith".data, "jane.smith@example.com".data⟩),
    ("bob.wilson@example.com".data,
      ⟨103, "Bob Wilson".data, "bob.wilson@example.com".data⟩),
    ("bob.wilson2@example.com".data,
      ⟨104, "Bob Wilson".data, "bob.wilson2@example.com".data⟩) ]

/-- Dummy data for clients (src/app/services.py, `CLIENTS`). -/
def CLIENTS : List (List Char × PersonRec) :=
  [ ("alice.johnson@example.com".data,
      ⟨201, "Alice Johnson".data, "alice.johnson@example.com".data⟩),
    ("charlie.brown@example.com".data,
      ⟨202, "Charlie Brown".data, "charlie.brown@example.com".data⟩),
    ("diana.ross@example.com".data,
      ⟨203, "Diana Ross".data, "diana.ross@example.com".data⟩) ]

/-- Loop body of `get_organisation_id_by_name`: scan the table in order,
returning the first entry whose key is contained in the query or whose
lowercased display name is contained in the query. -/
def orgScan (q : List Char) : List (List Char × OrgRec) → Option Int
  | [] => none
  | (key, org) :: rest =>
    if pyContains q key || pyContains q (pyLower org.name) then some org.id
    else orgScan q rest

/-- Embedding of `get_organisation_id_by_name` (src/app/services.py). -/
def get_organisation_id_by_name (org_name : List Char) : Option Int :=
  orgScan (pyLower org_name) ORGANIZATIONS

/-- Loop body of the by-name person lookups: scan the table in order,
returning the first entry whose lowercased name contains the query. -/
def personNameScan (q : List Char) : List (List Char × PersonRec) → Option Int
  | [] => none
  | (_, p) :: rest =>
    if pyContains (pyLower p.name) q then some p.id else personNameScan q rest

/-- Embedding of `get_adviser_id_by_name` (src/app/services.py). -/
def get_adviser_id_by_name (adviser_name : List Char) : Option Int :=
  personNameScan (pyLower adviser_name) ADVISERS

/-- Association-list lookup, modelling a Python dict key lookup. -/
def dictFind : List (List Char × α) → List Char → Option α
  | [], _ => none
  | (k, v) :: rest, key => if k = key then some v else dictFind rest key

/-- Embedding of `get_adviser_id_by_email` (src/app/services.py). -/
def get_adviser_id_by_email (email : List Char) : Option Int :=
  (dictFind ADVISERS (pyLower email)).map (fun p => p.id)

/-- Embedding of `get_client_id_by_name` (src/app/services.py). -/
def get_client_id_by_name (client_name : List Char) : Option Int :=
  personNameScan (pyLower client_name) CLIENTS

/-- Embedding of `get_client_id_by_email` (src/app/services.py). -/
def get_client_id_by_email (email : List Char) : Option Int :=
  (dictFind CLIENTS (pyLower email)).map (fun p => p.id)

/-! ## Catalog fingerprinter: SHA-256

src/app/main.py `calculate_file_hash` reads the catalog file in 4096-byte
chunks and feeds them to `hashlib.sha256`; the resulting digest is a
function of the file's full byte sequence only (incremental update over
chunks equals hashing the concatenation), so it is modelled here as a
function of the byte list. The SHA-256 algorithm implemented by
`hashlib.sha256` is spelled out below over `Nat` with explicit `% 2 ^ 32`
reductions. -/

/-- The modulus of 32-bit words. -/
def M32 : Nat := 4294967296

/-- Right rotation of a 32-bit word (the argument is kept < `M32` by the
callers). -/
def rotr (k a : Nat) : Nat := a / 2 ^ k + a % 2 ^ k * 2 ^ (32 - k)

/-- Logical right shift of a 32-bit word. -/
def shr (k a : Nat) : Nat := a / 2 ^ k

/-- Bitwise complement of a 32-bit word. -/
def not32 (a : Nat) : Nat := Nat.xor a (M32 - 1)

/-- SHA-256 big sigma 0. -/
def bsig0 (x : Nat) : Nat := Nat.xor (rotr 2 x) (Nat.xor (rotr 13 x) (rotr 22 x))

/-- SHA-256 big sigma 1. -/
def bsig1 (x : Nat) : Nat := Nat.xor (rotr 6 x) (Nat.xor (rotr 11 x) (rotr 25 x))

/-- SHA-256 small sigma 0. -/
def ssig0 (x : Nat) : Nat := Nat.xor (rotr 7 x) (Nat.xor (rotr 18 x) (shr 3 x))

/-- SHA-256 small sigma 1. -/
def ssig1 (x : Nat) : Nat := Nat.xor (rotr 17 x) (Nat.xor (rotr 19 x) (shr 10 x))

/-- SHA-256 choice function. -/
def ch (e f g : Nat) : Nat := Nat.xor (Nat.land e f) (Nat.land (not32 e) g)

/-- SHA-256 majority function. -/
def maj (a b c : Nat) : Nat :=
  Nat.xor (Nat.land a b) (Nat.xor (Nat.land a c) (Nat.land b c))

/-- The 64 SHA-256 round constants. -/
def K256 : List Nat :=
  [ 1116352408, 1899447441, 3049323471, 3921009573,
    961987163, 1508970993, 2453635748, 2870763221,
    3624381080, 310598401, 607225278, 1426881987,
    1925078388, 2162078206, 2614888103, 3248222580,
    3835390401, 4022224774, 264347078, 604807628,
    770255983, 1249150122, 1555081692, 1996064986,
    2554220882, 2821834349, 2952996808, 3210313671,
    3336571891, 3584528711, 113926993, 338241895,
    666307205, 773529912, 1294757372, 1396182291,
    1695183700, 1986661051, 2177026350, 2456956037,
    2730485921, 2820302411, 3259730800, 3345764771,
    3516065817, 3600352804, 4094571909, 275423344,
    430227734, 506948616, 659060556, 883997877,
    958139571, 1322822218, 1537002063, 1747873779,
    1955562222, 2024104815, 2227730452, 2361852424,
    2428436474, 2756734187, 3204031479, 3329325298 ]

/-- The eight 32-bit words of a SHA-256 state. -/
structure Hash8 where
  h0 : Nat
  h1 : Nat
  h2 : Nat
  h3 : Nat
  h4 : Nat
  h5 : Nat
  h6 : Nat
  h7 : Nat
deriving DecidableEq

/-- The SHA-256 initial state. -/
def sha256Init : Hash8 :=
  ⟨1779033703, 3144134277, 1013904242, 2773480762,
   1359893119, 2600822924, 528734635, 1541459225⟩

/-- Extend a 16-word message block to the 64-word schedule; each step
appends one word. -/
def extendW : Nat → List Nat → List Nat
  | 0, w => w
  | fuel + 1, w =>
    let t := w.length
    let wt := (ssig1 (w.getD (t - 2) 0) + w.getD (t - 7) 0 +
               ssig0 (w.getD (t - 15) 0) + w.getD (t - 16) 0) % M32
    extendW fuel (w ++ [wt])

/-- One SHA-256 round: the first component of the pair list is the round
constant plus schedule word, threaded through the eight working
variables. -/
def sha256Rounds : List (Nat × Nat) → Hash8 → Hash8
  | [], s => s
  | (k, w) :: rest, ⟨a, b, c, d, e, f, g, h⟩ =>
    let t1 := (h + bsig1 e + ch e f g + k + w) % M32
    let t2 := (bsig0 a + maj a b c) % M32
    sha256Rounds rest ⟨(t1 + t2) % M32, a, b, c, (d + t1) % M32, e, f, g⟩

/-- Compress one 16-word block into the running state. -/
def sha256Compress (s : Hash8) (block : List Nat) : Hash8 :=
  let w := extendW 48 block
  let r := sha256Rounds (K256.zip w) ⟨s.h0, s.h1, s.h2, s.h3, s.h4, s.h5, s.h6, s.h7⟩
  ⟨(s.h0 + r.h0) % M32, (s.h1 + r.h1) % M32, (s.h2 + r.h2) % M32,
   (s.h3 + r.h3) % M32, (s.h4 + r.h4) % M32, (s.h5 + r.h5) % M32,
   (s.h6 + r.h6) % M32, (s.h7 + r.h7) % M32⟩

/-- Big-endian bytes (k of them) of a natural number. -/
def toBE : Nat → Nat → List Nat
  | 0, _ => []
  | k + 1, n => (n / 2 ^ (8 * k)) % 256 :: toBE k n

/-- SHA-256 padding: append `0x80`, zero bytes to reach 56 mod 64, then
the bit length as 8 big-endian bytes. -/
def sha256Pad (msg : List Nat) : List Nat :=
  let L := msg.length
  let z := (119 - L % 64) % 64
  msg ++ [128] ++ List.replicate z 0 ++ toBE 8 (8 * L)

/-- Split a padded byte sequence into 64-byte blocks; the fuel bounds the
number of blocks, every step consumes 64 bytes. -/
def chunk64 : Nat → List Nat → List (List Nat)
  | 0, _ => []
  | fuel + 1, bs =>
    if bs.isEmpty then [] else bs.take 64 :: chunk64 fuel (bs.drop 64)

/-- Assemble a 64-byte block into sixteen 32-bit big-endian words; the
fuel bounds the number of words. -/
def bytesToWords : Nat → List Nat → List Nat
  | 0, _ => []
  | fuel + 1, bs =>
    match bs with
    | b0 :: b1 :: b2 :: b3 :: rest =>
      (b0 * 16777216 + b1 * 65536 + b2 * 256 + b3) :: bytesToWords fuel rest
    | _ => []

/-- SHA-256 state after absorbing an entire byte message. -/
def sha256State (msg : List Nat) : Hash8 :=
  let padded := sha256Pad msg
  let blocks := (chunk64 (padded.length + 1) padded).map (bytesToWords 16)
  blocks.foldl sha256Compress sha256Init

/-- The SHA-256 digest of a byte message as a single natural number
(the big-endian concatenation of the eight state words; always below
`2 ^ 256`). -/
def sha256Nat (msg : List Nat) : Nat :=
  let s := sha256State msg
  s.h0 * 2 ^ 224 + s.h1 * 2 ^ 192 + s.h2 * 2 ^ 160 + s.h3 * 2 ^ 128 +
    s.h4 * 2 ^ 96 + s.h5 * 2 ^ 64 + s.h6 * 2 ^ 32 + s.h7

/-- Lowercase hex digit for a value below 16. -/
def hexDigit (n : Nat) : Char :=
  if n < 10 then Char.ofNat (48 + n) else Char.ofNat (87 + n)

/-- Hex rendering of a natural number, k digits, most significant
first. -/
def natToHex : Nat → Nat → List Char
  | 0, _ => []
  | k + 1, n => hexDigit (n / 16 ^ k % 16) :: natToHex k n

/-- Embedding of `calculate_file_hash` (src/app/main.py): the
`hashlib.sha256(...).hexdigest()` of the file's bytes, 64 lowercase hex
characters. -/
def calculate_file_hash (fileBytes : List Nat) : List Char :=
  natToHex 64 (sha256Nat fileBytes)

/-! ## JSON values and Python dict operations

The `/ask` endpoint manipulates the parsed backend response as Python
dicts/lists produced by `json.loads`. JSON values are modelled by the
inductive `Json`; objects are association lists in insertion order, which
is exactly the ordering Python dicts preserve. Numbers are restricted to
integers: every number handled by the program (identifier values) is an
integer, and no claim involves floating point. -/

inductive Json where
  | null
  | bool (b : Bool)
  | num (n : Int)
  | str (s : List Char)
  | arr (elems : List Json)
  | obj (fields : List (List Char × Json))

/-- Python `dict.get(key)`: the value at the first (unique) occurrence of
the key. -/
def dictGet : List (List Char × Json) → List Char → Option Json
  | [], _ => none
  | (k, v) :: rest, key => if k = key then some v else dictGet rest key

/-- Python `dict[key] = value`: overwrite in place if the key is present,
otherwise append. -/
def dictSet : List (List Char × Json) → List Char → Json → List (List Char × Json)
  | [], key, v => [(key, v)]
  | (k, w) :: rest, key, v =>
    if k = key then (k, v) :: rest else (k, w) :: dictSet rest key v

/-- Python truthiness of a JSON value (`if x:`): `None`, `False`, `0`,
empty string, empty list and empty dict are falsy. -/
def truthy : Json → Bool
  | .null => false
  | .bool b => b
  | .num n => n != 0
  | .str s => !s.isEmpty
  | .arr xs => !xs.isEmpty
  | .obj fs => !fs.isEmpty

/-- Python `x == "literal"` for a JSON value against a string literal:
true exactly when the value is that string. -/
def jeqStr (j : Json) (s : List Char) : Bool :=
  match j with
  | .str t => t = s
  | _ => false

/-! ## json.loads

A recursive-descent parser for the JSON grammar as accepted by Python
`json.loads`, over `List Char` with explicit fuel (the parser is a single
structurally recursive function so that it evaluates inside the kernel).
Two deliberate restrictions, neither exercised by the program under
study: numbers must be integers (a `.`/`e` suffix makes the parse fail
rather than producing a float, which this model cannot represent), and a
`\u` escape denotes the code point of its four hex digits (no surrogate
pairing). -/

/-- JSON insignificant whitespace (as in Python json). -/
def skipWs : List Char → List Char
  | [] => []
  | c :: cs =>
    if c = ' ' || c = '\t' || c = '\n' || c = '\r' then skipWs cs else c :: cs

/-- Value of a hex digit, if any. -/
def hexVal : Char → Option Nat
  | c =>
    if '0' ≤ c ∧ c ≤ '9' then some (c.toNat - 48)
    else if 'a' ≤ c ∧ c ≤ 'f' then some (c.toNat - 87)
    else if 'A' ≤ c ∧ c ≤ 'F' then some (c.toNat - 55)
    else none

/-- Body of a JSON string literal, after the opening quote: returns the
decoded characters and the input after the closing quote. Escape
sequences follow Python json; raw control characters below 0x20 are
rejected (strict mode). -/
def parseStringBody : Nat → List Char → Option (List Char × List Char)
  | 0, _ => none
  | _, [] => none
  | fuel + 1, c :: cs =>
    if c = '"' then some ([], cs)
    else if c = '\\' then
      match cs with
      | [] => none
      | e :: cs' =>
        let dec : Option (Char × List Char) :=
          if e = '"' then some ('"', cs')
          else if e = '\\' then some ('\\', cs')
          else if e = '/' then some ('/', cs')
          else if e = 'b' then some ('\x08', cs')
          else if e = 'f' then some ('\x0c', cs')
          else if e = 'n' then some ('\n', cs')
          else if e = 'r' then some ('\r', cs')
          else if e = 't' then some ('\t', cs')
          else if e = 'u' then
            match cs' with
            | h1 :: h2 :: h3 :: h4 :: cs'' =>
              match hexVal h1, hexVal h2, hexVal h3, hexVal h4 with
              | some v1, some v2, some v3, some v4 =>
                some (Char.ofNat (v1 * 4096 + v2 * 256 + v3 * 16 + v4), cs'')
              | _, _, _, _ => none
            | _ => none
          else none
        match dec with
        | none => none
        | some (ch, rest) =>
          match parseStringBody fuel rest with
          | some (s, r) => some (ch :: s, r)
          | none => none
    else if c.toNat < 32 then none
    else
      match parseStringBody fuel cs with
      | some (s, r) => some (c :: s, r)
      | none => none

/-- ASCII decimal digit test. -/
def isDigitCh (c : Char) : Bool := '0' ≤ c && c ≤ '9'

/-- Numeric value of a digit string. -/
def digitsVal (ds : List Char) : Nat :=
  ds.foldl (fun a c => a * 10 + (c.toNat - 48)) 0

/-- Parse the digits of an integer literal; fails when there is no digit
or when the literal continues as a float (`.`, `e`, `E`), which this
model does not represent. -/
def parseIntDigits (cs : List Char) : Option (Nat × List Char) :=
  let ds := cs.takeWhile isDigitCh
  let rest := cs.dropWhile isDigitCh
  if ds.isEmpty then none
  else
    match rest with
    | '.' :: _ => none
    | 'e' :: _ => none
    | 'E' :: _ => none
    | _ => some (digitsVal ds, rest)

/-- Parser state: a plain value, or the element loop of an array, or the
member loop of an object (with the members accumulated so far). -/
inductive PMode where
  | val
  | arrAcc (acc : List Json)
  | objAcc (acc : List (List Char × Json))

/-- The JSON parser: one structurally recursive function over fuel.
`val` parses a single value; `arrAcc`/`objAcc` run the element/member
loops after at least one element is known to be present. Object members
accumulate with `dictSet`, reproducing the duplicate-key behaviour of
Python dicts (last value wins, first position kept). -/
def parseP : Nat → PMode → List Char → Option (Json × List Char)
  | 0, _, _ => none
  | fuel + 1, .val, cs0 =>
    match skipWs cs0 with
    | [] => none
    | c :: cs =>
      if c = '{' then
        match skipWs cs with
        | '}' :: rest => some (.obj [], rest)
        | rest => parseP fuel (.objAcc []) rest
      else if c = '[' then
        match skipWs cs with
        | ']' :: rest => some (.arr [], rest)
        | rest => parseP fuel (.arrAcc []) rest
      else if c = '"' then
        match parseStringBody (cs.length + 1) cs with
        | some (s, rest) => some (.str s, rest)
        | none => none
      else if c = 't' then
        if "rue".data.isPrefixOf cs then some (.bool true, cs.drop 3) else none
      else if c = 'f' then
        if "alse".data.isPrefixOf cs then some (.bool false, cs.drop 4) else none
      else if c = 'n' then
        if "ull".data.isPrefixOf cs then some (.null, cs.drop 3) else none
      else if c = '-' then
        match parseIntDigits cs with
        | some (n, rest) => some (.num (-(n : Int)), rest)
        | none => none
      else if isDigitCh c then
        match parseIntDigits (c :: cs) with
        | some (n, rest) => some (.num (n : Int), rest)
        | none => none
      else none
  | fuel + 1, .arrAcc acc, cs =>
    match parseP fuel .val cs with
    | none => none
    | some (v, rest) =>
      match skipWs rest with
      | ',' :: r2 => parseP fuel (.arrAcc (acc ++ [v])) r2
      | ']' :: r2 => some (.arr (acc ++ [v]), r2)
      | _ => none
  | fuel + 1, .objAcc acc, cs =>
    match skipWs cs with
    | '"' :: cs1 =>
      match parseStringBody (cs1.length + 1) cs1 with
      | none => none
      | some (k, r1) =>
        match skipWs r1 with
        | ':' :: r2 =>
          match parseP fuel .val r2 with
          | none => none
          | some (v, r3) =>
            match skipWs r3 with
            | ',' :: r4 => parseP fuel (.objAcc (dictSet acc k v)) r4
            | '}' :: r4 => some (.obj (dictSet acc k v), r4)
            | _ => none
        | _ => none
    | _ => none

/-- Embedding of `json.loads(text)`: parse one JSON value and require
only whitespace after it; `none` models `json.JSONDecodeError`. -/
def json_loads (cs : List Char) : Option Json :=
  match parseP (2 * cs.length + 4) .val cs with
  | some (v, rest) => if (skipWs rest).isEmpty then some v else none
  | none => none

/-! ## The /ask pipeline (src/app/main.py, `ask_question`)

The retriever result is a list of node metadata bags (`RouteMeta`,
mirroring the metadata attached to every indexed document in
`build_vector_index`), and the Gemini HTTP call is a parameter mapping
the prompt text to a status code and a parsed response body. Every
literal brace and apostrophe of the Python source strings is written
with a hex escape below. -/

structure RouteMeta where
  url : List Char
  title : List Char
  description : List Char
  tags : List (List Char)
  service : Option (List Char)
  hasAccess : List (List Char)

/-- Escaping of string contents as done by `json.dumps` with the default
`ensure_ascii`: quote, backslash and the common control characters get
two-character escapes, all other characters outside printable ASCII are
rendered as `\u` plus four hex digits (code points above 0xFFFF, which
would need surrogate pairs, do not occur in the data). -/
def pyJsonEscape : List Char → List Char
  | [] => []
  | c :: cs =>
    (if c = '"' then ['\\', '"']
     else if c = '\\' then ['\\', '\\']
     else if c = '\n' then ['\\', 'n']
     else if c = '\t' then ['\\', 't']
     else if c = '\r' then ['\\', 'r']
     else if c = '\x08' then ['\\', 'b']
     else if c = '\x0c' then ['\\', 'f']
     else if c.toNat < 32 || c.toNat > 126 then '\\' :: 'u' :: natToHex 4 c.toNat
     else [c]) ++ pyJsonEscape cs

/-- A JSON string literal as rendered by `json.dumps`. -/
def dumpStr (s : List Char) : List Char := '"' :: (pyJsonEscape s ++ ['"'])

/-- Elements of a string list at the nesting depth of the route object
fields, as rendered by `json.dumps(..., indent=2)`. -/
def dumpStrListItems : List (List Char) → List Char
  | [] => []
  | [x] => "    ".data ++ dumpStr x
  | x :: y :: rest => "    ".data ++ dumpStr x ++ ",\n".data ++ dumpStrListItems (y :: rest)

/-- A list of strings as rendered by `json.dumps(..., indent=2)` one
level inside the route object. -/
def dumpStrList (xs : List (List Char)) : List Char :=
  if xs.isEmpty then "[]".data
  else "[\n".data ++ dumpStrListItems xs ++ "\n  ]".data

/-- The `route_obj` dict of `ask_question` rendered by
`json.dumps(route_obj, indent=2)`: the six metadata fields in source
order. -/
def routeObjDump (m : RouteMeta) : List Char :=
  "\x7b\n  \"title\": ".data ++ dumpStr m.title ++
  ",\n  \"url\": ".data ++ dumpStr m.url ++
  ",\n  \"description\": ".data ++ dumpStr m.description ++
  ",\n  \"service\": ".data ++
    (match m.service with
     | some s => dumpStr s
     | none => "null".data) ++
  ",\n  \"hasAccess\": ".data ++ dumpStrList m.hasAccess ++
  ",\n  \"tags\": ".data ++ dumpStrList m.tags ++
  "\n\x7d".data

/-- The context string accumulated over the retrieved nodes (step 2 of
`ask_question`). -/
def build_context : List RouteMeta → List Char
  | [] => []
  | m :: rest => routeObjDump m ++ "\n\n".data ++ build_context rest

/-- The Gemini prompt (the f-string of `ask_question`), with the query
and the context interpolated at their two placeholders. -/
def build_prompt (query context : List Char) : List Char :=
  "\n        Based on the following query: \"".data ++ query ++
  "\"\n        \n        Here are the relevant routes found:\n        ".data ++
  context ++
  "\n        \n        Please:\n        1. Find the most relevant route(s)\n        2. For each route, use the exact service name from the route\x27s service field\n        3. Extract the parameter from the query if needed\n        4. Return the suggestions in the specified format\n        5. Provide a short, friendly explanation that feels helpful and natural — imagine you\x27re assisting the user, not giving a technical report.\n        \n        Return the response in this exact JSON format:\n        \x7b\n            \"suggestions\": [\n                \x7b\n                    \"title\": \"Route title\",\n                    \"path\": \"Route URL with :id placeholder (e.g. /app/contacts/:id/summary)\",\n                    \"description\": \"Route description\",\n                    \"service\": \"Exact service name from the route\x27s service field\",\n                    \"param\": \"Extracted parameter (name or email)\"\n                \x7d\n            ],\n            \"explanation\": \"Friendly explanation of why these pages are a good match for the user\x27s request.\"\n        \x7d\n        ".data

/-- The status code and parsed JSON body returned by the Gemini HTTP
call (`res.status_code` and `res.json()`). -/
structure BackendReply where
  status : Nat
  body : Json

/-- Python `x.get(key, default)` on a JSON value: an `AttributeError`
unless the value is a dict. -/
def pyGetDefault (j : Json) (key : List Char) (dflt : Json) : Except (List Char) Json :=
  match j with
  | .obj fs => .ok ((dictGet fs key).getD dflt)
  | _ => .error "AttributeError: get".data

/-- Python `x[0]` on a JSON value: first element of a list, first
character of a string, `KeyError`/`TypeError` otherwise. -/
def pyIndex0 (j : Json) : Except (List Char) Json :=
  match j with
  | .arr (x :: _) => .ok x
  | .arr [] => .error "IndexError".data
  | .str (c :: _) => .ok (.str [c])
  | .str [] => .error "IndexError".data
  | .obj _ => .error "KeyError: 0".data
  | _ => .error "TypeError: not subscriptable".data

/-- Extraction of the generated text from the Gemini response envelope
(`ask_question`, the candidates/content/parts/text chain with its four
truthiness guards, each of which raises an HTTPException when it
fails). -/
def extract_response_text (body : Json) : Except (List Char) (List Char) := do
  let candidates ← pyGetDefault body "candidates".data (.arr [])
  if truthy candidates = false then
    throw "No candidates in Gemini response".data
  let c0 ← pyIndex0 candidates
  let content ← pyGetDefault c0 "content".data (.obj [])
  if truthy content = false then
    throw "No content in first candidate".data
  let parts ← pyGetDefault content "parts".data (.arr [])
  if truthy parts = false then
    throw "No parts in content".data
  let p0 ← pyIndex0 parts
  let t ← pyGetDefault p0 "text".data (.str [])
  if truthy t = false then
    throw "No text in first part".data
  match t with
  | .str s => return s
  | _ => throw "AttributeError: strip".data

/-- The response-text cleanup of `ask_question`: strip whitespace, strip
a leading markdown fence (```json or ```), strip a trailing fence, strip
whitespace again. This is the entire repair performed by the code before
`json.loads`. -/
def normalize_response_text (t : List Char) : List Char :=
  let s := pyStrip t
  let s :=
    if "```json".data.isPrefixOf s then s.drop 7
    else if "```".data.isPrefixOf s then s.drop 3
    else s
  let s := if "```".data.isSuffixOf s then s.take (s.length - 3) else s
  pyStrip s

/-- The service dispatch of `ask_question`: the `elif` chain comparing
`suggestion["service"]` against the five capability names; an
unrecognized or non-string service yields `None`. Every branch passes
`suggestion["param"]` to a lookup function that immediately calls
`.lower()` on it, an `AttributeError` when the param is not a string. -/
def dispatch_service (sv pv : Json) : Except (List Char) (Option Int) :=
  if jeqStr sv "get_organisation_id_by_name".data then
    match pv with
    | .str p => .ok (get_organisation_id_by_name p)
    | _ => .error "AttributeError: lower".data
  else if jeqStr sv "get_adviser_id_by_name".data then
    match pv with
    | .str p => .ok (get_adviser_id_by_name p)
    | _ => .error "AttributeError: lower".data
  else if jeqStr sv "get_adviser_id_by_email".data then
    match pv with
    | .str p => .ok (get_adviser_id_by_email p)
    | _ => .error "AttributeError: lower".data
  else if jeqStr sv "get_client_id_by_name".data then
    match pv with
    | .str p => .ok (get_client_id_by_name p)
    | _ => .error "AttributeError: lower".data
  else if jeqStr sv "get_client_id_by_email".data then
    match pv with
    | .str p => .ok (get_client_id_by_email p)
    | _ => .error "AttributeError: lower".data
  else .ok none

/-- The body of the suggestion-processing loop of `ask_question` for one
suggestion: when both `service` and `param` are truthy, dispatch to the
lookup service and, when an id comes back, substitute `:id` in the path;
otherwise the suggestion passes through untouched. A non-dict suggestion
raises (`AttributeError` on `.get`), as does a missing or non-string
path when a substitution is attempted. -/
def process_suggestion (s : Json) : Except (List Char) Json :=
  match s with
  | .obj fs =>
    let sv := (dictGet fs "service".data).getD .null
    let pv := (dictGet fs "param".data).getD .null
    if truthy sv && truthy pv then
      match dispatch_service sv pv with
      | .error e => .error e
      | .ok none => .ok (.obj fs)
      | .ok (some i) =>
        match dictGet fs "path".data with
        | none => .error "KeyError: path".data
        | some (.str p) =>
          .ok (.obj (dictSet fs "path".data (.str (pyReplace p ":id".data (intToChars i)))))
        | some _ => .error "AttributeError: replace".data
    else .ok (.obj fs)
  | _ => .error "AttributeError: get".data

/-- The suggestion-processing loop of `ask_question`: process each
suggestion in order, appending to `processed_suggestions`; the first
exception aborts the request. -/
def process_suggestions : List Json → Except (List Char) (List Json)
  | [] => .ok []
  | s :: rest =>
    match process_suggestion s with
    | .error e => .error e
    | .ok s' =>
      match process_suggestions rest with
      | .error e => .error e
      | .ok rest' => .ok (s' :: rest')

/-- Python iteration over `response_data.get("suggestions", [])`: a list
iterates its elements, a string its characters (one-character strings),
a dict its keys; other values raise `TypeError`. -/
def pyIterate (j : Json) : Except (List Char) (List Json)  :=
  match j with
  | .arr xs => .ok xs
  | .str s => .ok (s.map (fun c => Json.str [c]))
  | .obj fs => .ok (fs.map (fun kv => Json.str kv.1))
  | _ => .error "TypeError: not iterable".data

/-- The short-circuit value returned by `ask_question` when retrieval
finds no nodes (src/app/main.py line 171): note the enclosing
`llm_response` key. -/
def short_circuit_response : Json :=
  .obj [("llm_response".data,
    .obj [("suggestions".data, .arr []),
          ("explanation".data,
            .str "No relevant pages were found for your request.".data)])]

/-- Embedding of the `/ask` endpoint `ask_question` (src/app/main.py).
Inputs: the query, the retriever result for that query, and the Gemini
backend as a function from prompt text to HTTP reply. Output: the
caller-visible result (`Except`: `.error` models an HTTPException with
status 500) paired with the number of times the generation backend was
invoked. -/
def ask_question (query : List Char) (nodes : List RouteMeta)
    (backend : List Char → BackendReply) : Except (List Char) Json × Nat :=
  if nodes.isEmpty then
    (.ok short_circuit_response, 0)
  else
    let prompt := build_prompt query (build_context nodes)
    let reply := backend prompt
    let result : Except (List Char) Json :=
      if reply.status ≠ 200 then .error "Gemini API error".data
      else
        match extract_response_text reply.body with
        | .error e => .error e
        | .ok t =>
          match json_loads (normalize_response_text t) with
          | none => .error "Failed to parse Gemini response".data
          | some rd =>
            match rd with
            | .obj fs =>
              match pyIterate ((dictGet fs "suggestions".data).getD (.arr [])) with
              | .error e => .error e
              | .ok xs =>
                match process_suggestions xs with
                | .error e => .error e
                | .ok processed =>
                  .ok (.obj (dictSet fs "suggestions".data (.arr processed)))
            | _ => .error "AttributeError: get".data
    (result, 1)

/-! ## Index lifecycle (src/app/main.py, `load_or_build_index` and
`rebuild_index`)

`build_vector_index` performs external effects only (reads the catalog,
calls the embedding backend, persists the index and its fingerprint), so
its outcome enters the model as data: the startup decision is modelled
over an abstract filesystem state, and the rebuild endpoint over the
build result. -/

/-- The filesystem facts `load_or_build_index` inspects: whether the
vector store directory exists and is non-empty, whether loading the
persisted index (the body of its `try` block up to the comparison)
succeeds without raising, the bytes of routes.json, and the contents of
vector_store_hash.txt when that file exists. -/
structure FsState where
  store_exists_nonempty : Bool
  load_ok : Bool
  routes_bytes : List Nat
  hash_file : Option (List Char)

/-- Embedding of `load_vector_store_hash` (src/app/main.py): the saved
hash file read and stripped, or `None` when the file does not exist. -/
def load_vector_store_hash (fs : FsState) : Option (List Char) :=
  fs.hash_file.map pyStrip

/-- Whether startup ended by loading the persisted index or by invoking
the builder (`build_vector_index`). -/
inductive IndexAction where
  | loaded
  | built
deriving DecidableEq

/-- Embedding of `load_or_build_index` (src/app/main.py): build when the
store is missing/empty, when loading raises, or when the current catalog
hash differs from the saved hash (a `None` saved hash never equals the
hex digest); otherwise serve the loaded index. -/
def load_or_build_index (fs : FsState) : IndexAction :=
  if fs.store_exists_nonempty = false then .built
  else if fs.load_ok = false then .built
  else if load_vector_store_hash fs ≠ some (calculate_file_hash fs.routes_bytes) then .built
  else .loaded

/-- The vector index over the embedded catalog documents; the claims
treat its contents opaquely, so it carries the document metadata. -/
structure VectorIndex where
  docs : List RouteMeta

/-- A retriever handle as produced by `index.as_retriever`. -/
structure RetrieverHandle where
  idx : VectorIndex
  similarity_top_k : Nat

/-- The module-level globals `index` and `retriever` of src/app/main.py. -/
structure AppGlobals where
  index : VectorIndex
  retr : RetrieverHandle

/-- The JSON body returned by a successful `/rebuild-index` call. -/
def rebuild_success_body : Json :=
  .obj [("status".data, .str "success".data),
        ("message".data, .str "Vector index rebuilt successfully".data)]

/-- Embedding of the `/rebuild-index` endpoint `rebuild_index`
(src/app/main.py): `index = build_vector_index()` evaluates the build
first, so on an exception neither global is reassigned and the error
propagates; on success both globals are replaced and the success body is
returned. -/
def rebuild_index (st : AppGlobals) (build_result : Except (List Char) VectorIndex) :
    AppGlobals × Except (List Char) Json :=
  match build_result with
  | .ok newIdx =>
      ({ index := newIdx, retr := { idx := newIdx, similarity_top_k := 3 } },
       .ok rebuild_success_body)
  | .error e => (st, .error e)

/-- The Suggestion shape of the data model: a JSON object whose `path`
field is a string and whose optional `service` and `param` fields, when
present, are strings or null. This is the schema the generation backend
is instructed to produce, and on it the processing loop never raises. -/
def suggestion_schema (s : Json) : Prop :=
  ∃ fs, s = Json.obj fs ∧
    (∃ p, dictGet fs "path".data = some (Json.str p)) ∧
    (∀ v, dictGet fs "service".data = some v → v = Json.null ∨ ∃ t, v = Json.str t) ∧
    (∀ v, dictGet fs "param".data = some v → v = Json.null ∨ ∃ t, v = Json.str t)

/-! ## Concrete sample data used by the theorems below -/

/-- The caller-visible short-circuit body as claim C1 words it: the two
fields `suggestions` and `explanation` at top level (this follows the
claim text, to be compared with what the code returns). -/
def c1_claimed_response : Json :=
  .obj [("suggestions".data, .arr []),
        ("explanation".data,
          .str "No relevant pages were found for your request.".data)]

/-- A retrieved node used to drive the non-empty branch of the pipeline
in concrete runs. -/
def sample_node : RouteMeta :=
  { url := "/advisers/:id".data
    title := "Adviser".data
    description := "Adviser page".data
    tags := ["adviser".data]
    service := some "get_adviser_id_by_email".data
    hasAccess := [] }

/-- A well-formed Gemini response envelope around a given generated
text: one candidate, one part. -/
def gemini_envelope (t : List Char) : Json :=
  Json.obj [("candidates".data, Json.arr
    [Json.obj [("content".data, Json.obj
      [("parts".data, Json.arr
        [Json.obj [("text".data, Json.str t)]])])]])]

/-- A backend whose generated text is not JSON at all. -/
def c2_backend (_ : List Char) : BackendReply :=
  ⟨200, gemini_envelope "this is not json".data⟩

/-- A second non-JSON-producing backend, for the witness run. -/
def c2_witness_backend (_ : List Char) : BackendReply :=
  ⟨200, gemini_envelope "Sorry, I could not find anything relevant.".data⟩

/-- A truncated generation: a JSON object missing its single closing
brace (the shape claim C3 is about, with N = 1). -/
def c3_truncated_text : List Char :=
  "\x7b\"suggestions\": [], \"explanation\": \"ok\"".data

/-- A backend producing the truncated text. -/
def c3_backend (_ : List Char) : BackendReply :=
  ⟨200, gemini_envelope c3_truncated_text⟩

/-- A suggestion with a resolvable email parameter. -/
def c4_sugg_hit : Json :=
  Json.obj [("title".data, Json.str "Adviser".data),
            ("path".data, Json.str "/advisers/:id".data),
            ("description".data, Json.str "d".data),
            ("service".data, Json.str "get_adviser_id_by_email".data),
            ("param".data, Json.str "john.doe@example.com".data)]

/-- A suggestion without service/param fields. -/
def c4_sugg_plain : Json :=
  Json.obj [("title".data, Json.str "Calendar".data),
            ("path".data, Json.str "/calendar".data),
            ("description".data, Json.str "Shows events".data)]

/-- A two-element input to the resolver stage. -/
def c4_sample_input : List Json := [c4_sugg_hit, c4_sugg_plain]

/-- The resolver output for `c4_sample_input`. -/
def c4_sample_output : List Json :=
  [Json.obj [("title".data, Json.str "Adviser".data),
             ("path".data, Json.str "/advisers/101".data),
             ("description".data, Json.str "d".data),
             ("service".data, Json.str "get_adviser_id_by_email".data),
             ("param".data, Json.str "john.doe@example.com".data)],
   c4_sugg_plain]

/-- The lookup-miss suggestion of the spec scenario: an email absent
from the adviser table. -/
def c5_sugg_fields : List (List Char × Json) :=
  [("service".data, Json.str "get_adviser_id_by_email".data),
   ("param".data, Json.str "unknown@example.com".data),
   ("path".data, Json.str "/advisers/:id".data)]

/-- The suggestion of the spec scenario for parameter resolution. -/
def c6_suggestion : Json :=
  Json.obj [("service".data, Json.str "get_adviser_id_by_email".data),
            ("param".data, Json.str "john.doe@example.com".data),
            ("path".data, Json.str "/advisers/:id".data)]

/-- The same suggestion with the placeholder substituted by id 101. -/
def c6_resolved : Json :=
  Json.obj [("service".data, Json.str "get_adviser_id_by_email".data),
            ("param".data, Json.str "john.doe@example.com".data),
            ("path".data, Json.str "/advisers/101".data)]

/-- A filesystem state whose stored fingerprint matches the current
catalog fingerprint while the vector store directory is empty (the hash
file survives although the store does not: the two are separate files). -/
def c7_fs_store_gone : FsState :=
  { store_exists_nonempty := false
    load_ok := true
    routes_bytes := []
    hash_file := some (calculate_file_hash []) }

/-- A filesystem state with store content, a clean load and a matching
stored fingerprint. -/
def c7_fs_fresh : FsState :=
  { store_exists_nonempty := true
    load_ok := true
    routes_bytes := []
    hash_file := some (calculate_file_hash []) }

/-- An initial globals value for the rebuild endpoint runs. -/
def c8_globals0 : AppGlobals :=
  { index := ⟨[]⟩, retr := { idx := ⟨[]⟩, similarity_top_k := 3 } }

/-- A freshly built index for the rebuild endpoint runs. -/
def c8_built_index : VectorIndex := ⟨[sample_node]⟩

/-! ## Helper lemmas -/

/-- Dropping a prefix cannot lengthen a list. -/
theorem length_dropWhile_le (p : Char → Bool) (l : List Char) :
    (l.dropWhile p).length ≤ l.length := by
  induction l with
  | nil => simp
  | cons c cs ih =>
    by_cases h : p c
    · rw [List.dropWhile_cons, if_pos h]
      exact Nat.le_trans ih (Nat.le_succ _)
    · rw [List.dropWhile_cons, if_neg h]

/-- Stripping whitespace cannot lengthen a string. -/
theorem pyStrip_length_le (s : List Char) : (pyStrip s).length ≤ s.length := by
  unfold pyStrip
  rw [List.length_reverse]
  refine Nat.le_trans (length_dropWhile_le _ _) ?_
  rw [List.length_reverse]
  exact length_dropWhile_le _ _

/-- The eight words of a compressed state are reduced modulo `M32`. -/
theorem sha256Compress_bounds (s : Hash8) (b : List Nat) :
    (sha256Compress s b).h0 < M32 ∧ (sha256Compress s b).h1 < M32 ∧
    (sha256Compress s b).h2 < M32 ∧ (sha256Compress s b).h3 < M32 ∧
    (sha256Compress s b).h4 < M32 ∧ (sha256Compress s b).h5 < M32 ∧
    (sha256Compress s b).h6 < M32 ∧ (sha256Compress s b).h7 < M32 := by
  have hM : 0 < M32 := by norm_num [M32]
  unfold sha256Compress
  exact ⟨Nat.mod_lt _ hM, Nat.mod_lt _ hM, Nat.mod_lt _ hM, Nat.mod_lt _ hM,
         Nat.mod_lt _ hM, Nat.mod_lt _ hM, Nat.mod_lt _ hM, Nat.mod_lt _ hM⟩

/-- Folding the compression function preserves the word bounds. -/
theorem foldl_compress_bounds (blocks : List (List Nat)) (s : Hash8)
    (hs : s.h0 < M32 ∧ s.h1 < M32 ∧ s.h2 < M32 ∧ s.h3 < M32 ∧
          s.h4 < M32 ∧ s.h5 < M32 ∧ s.h6 < M32 ∧ s.h7 < M32) :
    (blocks.foldl sha256Compress s).h0 < M32 ∧
    (blocks.foldl sha256Compress s).h1 < M32 ∧
    (blocks.foldl sha256Compress s).h2 < M32 ∧
    (blocks.foldl sha256Compress s).h3 < M32 ∧
    (blocks.foldl sha256Compress s).h4 < M32 ∧
    (blocks.foldl sha256Compress s).h5 < M32 ∧
    (blocks.foldl sha256Compress s).h6 < M32 ∧
    (blocks.foldl sha256Compress s).h7 < M32 := by
  induction blocks generalizing s with
  | nil => simpa using hs
  | cons b bs ih =>
    rw [List.foldl_cons]
    exact ih _ (sha256Compress_bounds s b)

/-- The final SHA-256 state is made of 32-bit words. -/
theorem sha256State_bounds (msg : List Nat) :
    (sha256State msg).h0 < M32 ∧ (sha256State msg).h1 < M32 ∧
    (sha256State msg).h2 < M32 ∧ (sha256State msg).h3 < M32 ∧
    (sha256State msg).h4 < M32 ∧ (sha256State msg).h5 < M32 ∧
    (sha256State msg).h6 < M32 ∧ (sha256State msg).h7 < M32 := by
  unfold sha256State
  exact foldl_compress_bounds _ _ (by norm_num [sha256Init, M32])

/-- The SHA-256 digest value is below `2 ^ 256` for every message. -/
theorem sha256Nat_lt (msg : List Nat) : sha256Nat msg < 2 ^ 256 := by
  obtain ⟨b0, b1, b2, b3, b4, b5, b6, b7⟩ := sha256State_bounds msg
  unfold sha256Nat
  have e0 : (sha256State msg).h0 ≤ M32 - 1 := by omega
  have e1 : (sha256State msg).h1 ≤ M32 - 1 := by omega
  have e2 : (sha256State msg).h2 ≤ M32 - 1 := by omega
  have e3 : (sha256State msg).h3 ≤ M32 - 1 := by omega
  have e4 : (sha256State msg).h4 ≤ M32 - 1 := by omega
  have e5 : (sha256State msg).h5 ≤ M32 - 1 := by omega
  have e6 : (sha256State msg).h6 ≤ M32 - 1 := by omega
  have e7 : (sha256State msg).h7 ≤ M32 - 1 := by omega
  calc (sha256State msg).h0 * 2 ^ 224 + (sha256State msg).h1 * 2 ^ 192 +
        (sha256State msg).h2 * 2 ^ 160 + (sha256State msg).h3 * 2 ^ 128 +
        (sha256State msg).h4 * 2 ^ 96 + (sha256State msg).h5 * 2 ^ 64 +
        (sha256State msg).h6 * 2 ^ 32 + (sha256State msg).h7
      ≤ (M32 - 1) * 2 ^ 224 + (M32 - 1) * 2 ^ 192 + (M32 - 1) * 2 ^ 160 +
        (M32 - 1) * 2 ^ 128 + (M32 - 1) * 2 ^ 96 + (M32 - 1) * 2 ^ 64 +
        (M32 - 1) * 2 ^ 32 + (M32 - 1) := by
        gcongr
    _ < 2 ^ 256 := by norm_num [M32]

/-- By counting, SHA-256 cannot be injective: there are more byte
strings than 256-bit digests, so two distinct all-zero byte files share
a fingerprint. -/
theorem sha_collision :
    ∃ m1 m2 : List Nat, (∀ x ∈ m1, x < 256) ∧ (∀ x ∈ m2, x < 256) ∧ m1 ≠ m2 ∧
      calculate_file_hash m1 = calculate_file_hash m2 := by
  obtain ⟨i, j, hne, heq⟩ :=
    Fintype.exists_ne_map_eq_of_card_lt
      (fun i : Fin (2 ^ 256 + 1) =>
        (⟨sha256Nat (List.replicate i.1 0), sha256Nat_lt _⟩ : Fin (2 ^ 256)))
      (by rw [Fintype.card_fin, Fintype.card_fin]; exact Nat.lt_succ_self _)
  refine ⟨List.replicate i.1 0, List.replicate j.1 0, ?_, ?_, ?_, ?_⟩
  · intro x hx
    have := List.eq_of_mem_replicate hx
    omega
  · intro x hx
    have := List.eq_of_mem_replicate hx
    omega
  · intro h
    apply hne
    have hlen := congrArg List.length h
    simp only [List.length_replicate] at hlen
    exact Fin.ext hlen
  · have hval : sha256Nat (List.replicate i.1 0) = sha256Nat (List.replicate j.1 0) := by
      simpa using congrArg Fin.val heq
    unfold calculate_file_hash
    rw [hval]

/-- First-match characterization of the by-name scan: the scan returns
`none` exactly when no entry matches, and otherwise the id of an entry
that matches while all earlier entries do not. -/
theorem personNameScan_first (q : List Char) (l : List (List Char × PersonRec)) :
    (personNameScan q l = none → ∀ p ∈ l, pyContains (pyLower p.2.name) q = false) ∧
    (∀ i : Int, personNameScan q l = some i →
      ∃ k, ∃ hk : k < l.length,
        pyContains (pyLower (l.get ⟨k, hk⟩).2.name) q = true ∧
        (l.get ⟨k, hk⟩).2.id = i ∧
        ∀ j, ∀ hj : j < l.length, j < k →
          pyContains (pyLower (l.get ⟨j, hj⟩).2.name) q = false) := by
  induction l with
  | nil =>
    constructor
    · intro _ p hp
      simp at hp
    · intro i h
      simp [personNameScan] at h
  | cons e rest ih =>
    obtain ⟨key, p⟩ := e
    by_cases hc : pyContains (pyLower p.name) q = true
    · constructor
      · intro hnone
        simp [personNameScan, hc] at hnone
      · intro i hsome
        simp only [personNameScan, hc, if_true, Option.some.injEq] at hsome
        refine ⟨0, by simp, by simpa using hc, by simpa using hsome, ?_⟩
        intro j hj hj0
        omega
    · have hc' : pyContains (pyLower p.name) q = false := by
        cases hcc : pyContains (pyLower p.name) q
        · rfl
        · exact absurd hcc hc
      constructor
      · intro hnone p' hp'
        simp only [personNameScan, hc', if_false, Bool.false_eq_true] at hnone
        rcases List.mem_cons.mp hp' with h | h
        · subst h
          simpa using hc'
        · exact (ih.1 hnone) p' h
      · intro i hsome
        simp only [personNameScan, hc', if_false, Bool.false_eq_true] at hsome
        obtain ⟨k, hk, h1, h2, h3⟩ := ih.2 i hsome
        refine ⟨k + 1, by simpa using Nat.succ_lt_succ hk, by simpa using h1,
          by simpa using h2, ?_⟩
        intro j hj hjk
        cases j with
        | zero => simpa using hc'
        | succ n =>
          have hn : n < rest.length := by
            simp at hj
            omega
          simpa using h3 n hn (by omega)

/-! ## Claim theorems -/

/-- C1, counterexample: with empty retrieval the endpoint does
short-circuit without invoking the backend, but the caller-visible body
nests the two fields under a top-level `llm_response` key; it is not the
object with `suggestions` and `explanation` as the top-level fields that
the claim describes. -/
theorem c1_counterexample :
    ask_question "view calendar".data [] (fun _ => ⟨200, Json.null⟩) =
      (Except.ok short_circuit_response, 0) ∧
    short_circuit_response ≠ c1_claimed_response := by
  refine ⟨rfl, ?_⟩
  intro h
  have hk := congrArg (fun j => match j with
    | Json.obj fields => fields.map Prod.fst
    | _ => ([] : List (List Char))) h
  exact absurd hk (by decide)

/-- C1, amended: for every query and every backend, an empty retrieval
result yields the short-circuit response (the empty suggestion body
wrapped under the top-level key `llm_response`) and the generation
backend is invoked zero times. -/
theorem c1_empty_retrieval_short_circuit (query : List Char)
    (backend : List Char → BackendReply) :
    ask_question query [] backend = (Except.ok short_circuit_response, 0) := rfl

/-- C2, counterexample: a backend text on which parsing fails (after the
only repair the code performs, the markdown-fence strip) makes the
endpoint raise an HTTP 500 error; the canonical empty response is never
produced. -/
theorem c2_counterexample :
    ask_question "find my adviser".data [sample_node] c2_backend =
      (Except.error "Failed to parse Gemini response".data, 1) := rfl

/-- C2, amended: whenever the backend replies with status 200, the
envelope text extracts successfully, and the cleaned text fails to
parse, the endpoint raises an HTTP 500 parse error to the caller (no
canonical empty `SuggestionResponse` is returned). -/
theorem c2_parse_failure_raises (query : List Char) (nodes : List RouteMeta)
    (backend : List Char → BackendReply) (t : List Char)
    (hn : nodes ≠ [])
    (hst : (backend (build_prompt query (build_context nodes))).status = 200)
    (hext : extract_response_text
      (backend (build_prompt query (build_context nodes))).body = Except.ok t)
    (hparse : json_loads (normalize_response_text t) = none) :
    ask_question query nodes backend =
      (Except.error "Failed to parse Gemini response".data, 1) := by
  have hne : nodes.isEmpty = false := by
    cases nodes
    · exact absurd rfl hn
    · rfl
  simp only [ask_question, hne, Bool.false_eq_true, if_false, hst, hext, hparse, ne_eq,
    not_true_eq_false]

/-- C2, witness: a concrete run through the amended theorem, with a
polite non-JSON backend reply. -/
theorem c2_witness :
    ask_question "q".data [sample_node] c2_witness_backend =
      (Except.error "Failed to parse Gemini response".data, 1) :=
  c2_parse_failure_raises "q".data [sample_node] c2_witness_backend
    "Sorry, I could not find anything relevant.".data
    (by simp) rfl rfl rfl

/-- C3, counterexample: on a truncated JSON object missing one closing
brace the normalizer does not produce a parseable result — the parse
fails and the endpoint raises an HTTP 500 error. -/
theorem c3_counterexample :
    json_loads (normalize_response_text c3_truncated_text) = none ∧
    ask_question "list suggestions".data [sample_node] c3_backend =
      (Except.error "Failed to parse Gemini response".data, 1) :=
  ⟨rfl, rfl⟩

/-- C3, amended: the response-text cleanup never appends characters (so
in particular no closing braces are appended), and a truncated JSON
object missing a closing brace remains unparseable after cleanup. -/
theorem c3_no_brace_repair :
    (∀ t : List Char, (normalize_response_text t).length ≤ t.length) ∧
    json_loads (normalize_response_text c3_truncated_text) = none := by
  constructor
  · intro t
    have h1 := pyStrip_length_le t
    unfold normalize_response_text
    dsimp only
    split_ifs
    all_goals refine Nat.le_trans (pyStrip_length_le _) ?_
    all_goals try simp only [List.length_take, List.length_drop]
    all_goals omega
  · rfl

/-- Length and order preservation of the processing loop, conditional on
the loop returning. -/
theorem process_suggestions_length_order (xs out : List Json)
    (h : process_suggestions xs = Except.ok out) :
    out.length = xs.length ∧
    ∀ i, ∀ hx : i < xs.length, ∀ ho : i < out.length,
      process_suggestion (xs.get ⟨i, hx⟩) = Except.ok (out.get ⟨i, ho⟩) := by
  induction xs generalizing out with
  | nil =>
    simp only [process_suggestions, Except.ok.injEq] at h
    subst h
    exact ⟨rfl, fun i hx ho => absurd hx (by simp)⟩
  | cons s rest ih =>
    cases hs : process_suggestion s with
    | error e =>
      simp only [process_suggestions, hs] at h
      exact absurd h (by simp)
    | ok s' =>
      cases hr : process_suggestions rest with
      | error e =>
        simp only [process_suggestions, hs, hr] at h
        exact absurd h (by simp)
      | ok rest' =>
        simp only [process_suggestions, hs, hr, Except.ok.injEq] at h
        subst h
        obtain ⟨hlen, hidx⟩ := ih rest' hr
        constructor
        · simp [hlen]
        · intro i hx ho
          cases i with
          | zero => simpa using hs
          | succ n =>
            have hx' : n < rest.length := by
              simp at hx
              omega
            have ho' : n < rest'.length := by
              simp at ho
              omega
            simpa using hidx n hx' ho'

/-- The service dispatch never raises when both arguments are strings:
each of the five recognized branches calls a total lookup, and anything
else yields `None`. -/
theorem dispatch_service_total (sv pv : List Char) :
    ∃ r, dispatch_service (Json.str sv) (Json.str pv) = Except.ok r := by
  unfold dispatch_service
  split_ifs <;> exact ⟨_, rfl⟩

/-- Processing one schema-conforming suggestion never raises. -/
theorem process_suggestion_total (s : Json) (hs : suggestion_schema s) :
    ∃ s', process_suggestion s = Except.ok s' := by
  obtain ⟨fs, rfl, ⟨p, hp⟩, hserv, hparam⟩ := hs
  unfold process_suggestion
  cases hsv : dictGet fs "service".data with
  | none => exact ⟨Json.obj fs, by simp [hsv, truthy]⟩
  | some v =>
    rcases hserv v hsv with rfl | ⟨t, rfl⟩
    · exact ⟨Json.obj fs, by simp [hsv, truthy]⟩
    · cases hpv : dictGet fs "param".data with
      | none => exact ⟨Json.obj fs, by simp [hsv, hpv, truthy]⟩
      | some w =>
        rcases hparam w hpv with rfl | ⟨u, rfl⟩
        · exact ⟨Json.obj fs, by simp [hsv, hpv, truthy]⟩
        · by_cases ht : t.isEmpty
          · exact ⟨Json.obj fs, by simp [hsv, hpv, truthy, ht]⟩
          · by_cases hu : u.isEmpty
            · exact ⟨Json.obj fs, by simp [hsv, hpv, truthy, ht, hu]⟩
            · obtain ⟨r, hr⟩ := dispatch_service_total t u
              cases r with
              | none => exact ⟨Json.obj fs, by simp [hsv, hpv, truthy, ht, hu, hr]⟩
              | some i =>
                exact ⟨Json.obj (dictSet fs "path".data
                    (Json.str (pyReplace p ":id".data (intToChars i)))),
                  by simp [hsv, hpv, truthy, ht, hu, hr, hp]⟩

/-- The processing loop returns on every list of schema-conforming
suggestions. -/
theorem process_suggestions_total (xs : List Json)
    (h : ∀ s ∈ xs, suggestion_schema s) :
    ∃ out, process_suggestions xs = Except.ok out := by
  induction xs with
  | nil => exact ⟨[], rfl⟩
  | cons s rest ih =>
    obtain ⟨s', hs'⟩ := process_suggestion_total s (h s (by simp))
    obtain ⟨out, hout⟩ := ih (fun x hx => h x (by simp [hx]))
    exact ⟨s' :: out, by simp [process_suggestions, hs', hout]⟩

/-- C4: the suggestion-processing stage returns on every sequence of
schema-conforming suggestions, and whenever it returns it returns as
many suggestions as it was given, the i-th output being exactly the
processing of the i-th input (nothing added, removed or reordered). -/
theorem c4_resolver_preserves_length_order :
    (∀ xs out : List Json, process_suggestions xs = Except.ok out →
      out.length = xs.length ∧
      ∀ i, ∀ hx : i < xs.length, ∀ ho : i < out.length,
        process_suggestion (xs.get ⟨i, hx⟩) = Except.ok (out.get ⟨i, ho⟩)) ∧
    (∀ xs : List Json, (∀ s ∈ xs, suggestion_schema s) →
      ∃ out, process_suggestions xs = Except.ok out) :=
  ⟨process_suggestions_length_order, process_suggestions_total⟩

/-- C4, witness: a concrete two-suggestion run (one resolvable, one
without service/param) preserving length. -/
theorem c4_witness :
    process_suggestions c4_sample_input = Except.ok c4_sample_output ∧
    c4_sample_output.length = c4_sample_input.length := by
  have h : process_suggestions c4_sample_input = Except.ok c4_sample_output := rfl
  exact ⟨h, (c4_resolver_preserves_length_order.1 c4_sample_input c4_sample_output h).1⟩

/-- C5: a suggestion with non-empty service and param whose dispatch
comes back empty — a lookup miss from a recognized capability or an
unrecognized service name — passes through the processing stage
completely unchanged (path included) and without error. -/
theorem c5_lookup_miss_passthrough (fs : List (List Char × Json)) (sv pv : List Char)
    (hs : dictGet fs "service".data = some (Json.str sv)) (hsv : sv ≠ [])
    (hp : dictGet fs "param".data = some (Json.str pv)) (hpv : pv ≠ [])
    (hmiss : dispatch_service (Json.str sv) (Json.str pv) = Except.ok none) :
    process_suggestion (Json.obj fs) = Except.ok (Json.obj fs) := by
  have h1 : sv.isEmpty = false := by
    cases sv
    · exact absurd rfl hsv
    · rfl
  have h2 : pv.isEmpty = false := by
    cases pv
    · exact absurd rfl hpv
    · rfl
  simp [process_suggestion, hs, hp, truthy, h1, h2, hmiss]

/-- C5, witness: the spec scenario — an adviser-by-email lookup on an
email absent from the table leaves the suggestion and its path
unchanged. -/
theorem c5_witness :
    process_suggestion (Json.obj c5_sugg_fields) = Except.ok (Json.obj c5_sugg_fields) :=
  c5_lookup_miss_passthrough c5_sugg_fields
    "get_adviser_id_by_email".data "unknown@example.com".data
    rfl (by decide) rfl (by decide) rfl

/-- C6: the lookup table maps john.doe@example.com to id 101, and the
spec-scenario suggestion resolves to the path `/advisers/101` (the `:id`
placeholder substituted by the string form of the id). -/
theorem c6_email_scenario :
    get_adviser_id_by_email "john.doe@example.com".data = some 101 ∧
    process_suggestion c6_suggestion = Except.ok c6_resolved :=
  ⟨rfl, rfl⟩

/-- C7, counterexample: a state whose stored fingerprint equals the
current catalog fingerprint while the vector store directory is missing
or empty — the hash file and the store are separate artifacts — still
invokes the builder on startup. -/
theorem c7_counterexample :
    load_vector_store_hash c7_fs_store_gone =
      some (calculate_file_hash c7_fs_store_gone.routes_bytes) ∧
    load_or_build_index c7_fs_store_gone = IndexAction.built :=
  ⟨by decide, rfl⟩

/-- C7, amended: on every startup where the vector store has content,
loading it raises no exception, and the stored fingerprint equals the
current catalog fingerprint, the builder is not invoked — the persisted
index is served. -/
theorem c7_matching_fingerprint_loads (fs : FsState)
    (h1 : fs.store_exists_nonempty = true) (h2 : fs.load_ok = true)
    (h3 : load_vector_store_hash fs = some (calculate_file_hash fs.routes_bytes)) :
    load_or_build_index fs = IndexAction.loaded := by
  unfold load_or_build_index
  rw [h1, h2, h3]
  simp

/-- C7, witness: a concrete healthy state loads without building. -/
theorem c7_witness : load_or_build_index c7_fs_fresh = IndexAction.loaded :=
  c7_matching_fingerprint_loads c7_fs_fresh rfl rfl (by decide)

/-- C8: the rebuild endpoint replaces both globals with the newly built
index exactly when the build succeeds (returning the success body), and
on a build failure leaves the globals untouched and propagates the
error to the caller. -/
theorem c8_rebuild_swap_or_preserve (st : AppGlobals)
    (build_result : Except (List Char) VectorIndex) :
    (∀ idx, build_result = Except.ok idx →
      (rebuild_index st build_result).1.index = idx ∧
      (rebuild_index st build_result).1.retr.idx = idx ∧
      (rebuild_index st build_result).2 = Except.ok rebuild_success_body) ∧
    (∀ e, build_result = Except.error e →
      (rebuild_index st build_result).1 = st ∧
      (rebuild_index st build_result).2 = Except.error e) := by
  constructor
  · intro idx h
    subst h
    exact ⟨rfl, rfl, rfl⟩
  · intro e h
    subst h
    exact ⟨rfl, rfl⟩

/-- C8, witness: one successful and one failing rebuild at concrete
states. -/
theorem c8_witness :
    (rebuild_index c8_globals0 (Except.ok c8_built_index)).1.index = c8_built_index ∧
    (rebuild_index c8_globals0 (Except.error "CatalogFormatError".data)).1 = c8_globals0 :=
  ⟨((c8_rebuild_swap_or_preserve c8_globals0 _).1 c8_built_index rfl).1,
   ((c8_rebuild_swap_or_preserve c8_globals0 _).2 "CatalogFormatError".data rfl).1⟩

/-- C9, counterexample: the fingerprint does not change for every byte
change — SHA-256 maps infinitely many byte strings into finitely many
256-bit digests, so two distinct catalog byte strings with the same
fingerprint exist, refuting the only-if direction of the claim. -/
theorem c9_counterexample :
    ¬ ∀ b1 b2 : List Nat, (∀ x ∈ b1, x < 256) → (∀ x ∈ b2, x < 256) →
        calculate_file_hash b1 = calculate_file_hash b2 → b1 = b2 := by
  intro hinj
  obtain ⟨m1, m2, h1, h2, hne, heq⟩ := sha_collision
  exact hne (hinj m1 m2 h1 h2 heq)

/-- C9, amended: the fingerprint is deterministic — identical bytes
always yield the identical digest, equivalently a digest change implies
a byte change; a byte change yielding a digest change holds only with
overwhelming probability, not universally. -/
theorem c9_fingerprint_deterministic (b1 b2 : List Nat) :
    (b1 = b2 → calculate_file_hash b1 = calculate_file_hash b2) ∧
    (calculate_file_hash b1 ≠ calculate_file_hash b2 → b1 ≠ b2) := by
  constructor
  · intro h
    rw [h]
  · intro h hb
    exact h (by rw [hb])

/-- C9, witness: determinism applied at the empty byte string. -/
theorem c9_witness : calculate_file_hash [] = calculate_file_hash [] :=
  (c9_fingerprint_deterministic [] []).1 rfl

/-- C10: the by-name adviser lookup returns the id of the first matching
entry in table iteration order — `none` exactly when no lowercased name
contains the lowercased query, otherwise the id of a matching entry all
of whose predecessors fail to match; with the shipped table, whose two
advisers named Bob Wilson carry ids 103 and 104, the query "bob wilson"
resolves to 103. -/
theorem c10_by_name_first_match :
    (∀ q : List Char,
      (get_adviser_id_by_name q = none →
        ∀ p ∈ ADVISERS, pyContains (pyLower p.2.name) (pyLower q) = false) ∧
      (∀ i : Int, get_adviser_id_by_name q = some i →
        ∃ k, ∃ hk : k < ADVISERS.length,
          pyContains (pyLower (ADVISERS.get ⟨k, hk⟩).2.name) (pyLower q) = true ∧
          (ADVISERS.get ⟨k, hk⟩).2.id = i ∧
          ∀ j, ∀ hj : j < ADVISERS.length, j < k →
            pyContains (pyLower (ADVISERS.get ⟨j, hj⟩).2.name) (pyLower q) = false)) ∧
    get_adviser_id_by_name "bob wilson".data = some 103 ∧
    (ADVISERS.filter (fun p => p.2.name = "Bob Wilson".data)).map (fun p => p.2.id) =
      [103, 104] := by
  refine ⟨fun q => personNameScan_first (pyLower q) ADVISERS, by decide, by decide⟩

/-- C10, witness: the claim instantiated at the concrete query. -/
theorem c10_witness : get_adviser_id_by_name "bob wilson".data = some 103 :=
  c10_by_name_first_match.2.1
